import Mathlib

/-!
# Verification of the Lodestar subgraph wrapper's derived-field layer

Shallow embedding of `src/src/index-testing.ts` (the single source file of the
repository).  Monetary quantities are modelled as exact rationals (the source
uses the arbitrary-precision `bigdecimal` library on decimal-string inputs, so
every value occurring is a decimal fraction, hence a rational).  Division at a
fixed scale with rounding mode ROUND_DOWN (truncation toward zero) is modelled
explicitly, and a division whose divisor is zero is an `ArithError`, mirroring
the library's exception.

Two places in the source compare `bigdecimal` objects with the JavaScript `==`
operator (lines 131 and 195).  When both operands of JavaScript `==` are
objects, the comparison is reference equality, so comparing two freshly
constructed objects can never be true.  To capture this faithfully we model a
`bigdecimal` value as a heap object carrying an allocation address (`ref`),
allocation as a monotone counter, and the `==` of the source as comparison of
addresses.  Reference tracking is threaded only through the functions whose
results ever reach one of those two `==` sites; functions whose results are
only used numerically are given directly as rational-valued functions.
-/

/-- Error raised by the decimal library: dividing by the zero value.
Modelled from the spec's Decimal Value contract (§4.2): `divide` fails with
`DivisionByZero` if the divisor is the zero value. -/
inductive ArithError where
  | divisionByZero
deriving DecidableEq, Repr

/-- ROUND_DOWN (truncation toward zero) of a rational to an integer. -/
def truncTowardZero (q : ℚ) : ℤ :=
  if 0 ≤ q then ⌊q⌋ else -⌊-q⌋

/-- `divide(dividend, divisor, scale)` of the decimal library: the quotient
with `s` fractional digits, rounding mode ROUND_DOWN, failing on a zero
divisor.  Modelled from the spec's Decimal Value contract (§4.2). -/
def bdDivide (a b : ℚ) (s : ℕ) : Except ArithError ℚ :=
  if b = 0 then Except.error ArithError.divisionByZero
  else Except.ok ((truncTowardZero (a / b * 10 ^ s) : ℚ) / 10 ^ s)

/-- Heap address of a JavaScript object. -/
abbrev Ref := ℕ

/-- A `bigdecimal` heap object: its allocation address and its numeric value.
`new bigDecimal(v)` (the source's `bigdec` helper, line 125) allocates a fresh
object, so two separate calls always yield distinct addresses. -/
structure BigDecObj where
  ref : Ref
  val : ℚ
deriving DecidableEq, Repr

/-- Allocate a fresh `bigdecimal` object at the current counter. -/
def allocBigDec (n : Ref) (v : ℚ) : BigDecObj × Ref :=
  (⟨n, v⟩, n + 1)

/-- JavaScript `==` where both operands are objects: reference equality. -/
def jsObjEq (a b : BigDecObj) : Bool :=
  a.ref == b.ref

/-- A lending pool (upstream `Market` entity, spec §3); all numeric fields
arrive from upstream as decimal strings and are modelled by their values. -/
structure Market where
  exchangeRate : ℚ
  borrowIndex : ℚ
  collateralFactor : ℚ
  underlyingPrice : ℚ
deriving DecidableEq, Repr

/-- One account's stake in one market (upstream `AccountCToken` entity). -/
structure CToken where
  id : String
  cTokenBalance : ℚ
  storedBorrowBalance : ℚ
  accountBorrowIndex : ℚ
  totalUnderlyingSupplied : ℚ
  totalUnderlyingRedeemed : ℚ
  totalUnderlyingBorrowed : ℚ
  totalUnderlyingRepaid : ℚ
  market : Market
deriving DecidableEq, Repr

/-- Upstream `Account` entity: the has-borrowed flag and the list of its
positions (the resolver receives them under the alias `___tokens: tokens`). -/
structure Account where
  id : String
  hasBorrowed : Bool
  tokens : List CToken
deriving DecidableEq, Repr

/-- `supplyBalanceUnderlying` (source line 127):
`bigdec(cToken.cTokenBalance).multiply(cToken.market.exchangeRate)`. -/
def supplyBalanceUnderlying (c : CToken) : ℚ :=
  c.cTokenBalance * c.market.exchangeRate

/-- `borrowBalanceUnderlying` (source lines 130-138).  The guard is the
source's `bigdec(cToken.accountBorrowIndex)==(bigdec('0'))`: a JavaScript `==`
between two freshly allocated objects, i.e. reference equality of two distinct
fresh addresses.  The else branch computes
`bigdec(storedBorrowBalance).multiply(market.borrowIndex).divide(accountBorrowIndex, 18)`.
`n` is the allocation counter on entry; the result is the (possibly failing)
returned object together with the counter on exit. -/
def borrowBalanceUnderlying (n : Ref) (c : CToken) :
    Except ArithError BigDecObj × Ref :=
  let (idxObj, n1) := allocBigDec n c.accountBorrowIndex
  let (zeroObj, n2) := allocBigDec n1 0
  if jsObjEq idxObj zeroObj then
    let (r, n3) := allocBigDec n2 0
    (Except.ok r, n3)
  else
    let (sb, n3) := allocBigDec n2 c.storedBorrowBalance
    let (prod, n4) := allocBigDec n3 (sb.val * c.market.borrowIndex)
    match bdDivide prod.val c.accountBorrowIndex 18 with
    | Except.error e => (Except.error e, n4)
    | Except.ok q =>
      let (r, n5) := allocBigDec n4 q
      (Except.ok r, n5)

/-- `tokenInEth` (source lines 140-143):
`bigdec(market.collateralFactor).multiply(market.exchangeRate).multiply(market.underlyingPrice)`. -/
def tokenInEth (m : Market) : ℚ :=
  m.collateralFactor * m.exchangeRate * m.underlyingPrice

/-- `supplyBalanceETH` (source lines 145-146):
`supplyBalanceUnderlying(cToken).multiply(cToken.market.underlyingPrice)`. -/
def supplyBalanceETH (c : CToken) : ℚ :=
  supplyBalanceUnderlying c * c.market.underlyingPrice

/-- `totalCollateralValueInEth` (source lines 151-155): a left `reduce` over
`account.___tokens` starting from `bigdec('0')`, each step adding
`tokenInEth(token.market).multiply(token.cTokenBalance)`.  Its result never
reaches an object-identity comparison, so it is modelled numerically. -/
def totalCollateralValueInEth (a : Account) : ℚ :=
  a.tokens.foldl (fun acc t => acc + tokenInEth t.market * t.cTokenBalance) 0

/-- One step of the `reduce` inside `totalBorrowValueInEth` (source lines
160-166): `acc.plus(bigdec(token.market.underlyingPrice).multiply(borrowBalanceUnderlying(token)))`.
An exception thrown by `borrowBalanceUnderlying` propagates out of the whole
`reduce`. -/
def totalBorrowStep (acc : Except ArithError BigDecObj × Ref) (t : CToken) :
    Except ArithError BigDecObj × Ref :=
  match acc with
  | (Except.error e, m) => (Except.error e, m)
  | (Except.ok accObj, m) =>
    let (p, m1) := allocBigDec m t.market.underlyingPrice
    match borrowBalanceUnderlying m1 t with
    | (Except.error e, m2) => (Except.error e, m2)
    | (Except.ok b, m2) =>
      let (prod, m3) := allocBigDec m2 (p.val * b.val)
      let (s, m4) := allocBigDec m3 (accObj.val + prod.val)
      (Except.ok s, m4)

/-- `totalBorrowValueInEth` (source lines 157-166): `bigdec('0')` when the
account has never borrowed, otherwise the left `reduce` of `totalBorrowStep`
over `account.___tokens` starting from a fresh `bigdec('0')`. -/
def totalBorrowValueInEth (n : Ref) (a : Account) :
    Except ArithError BigDecObj × Ref :=
  if !a.hasBorrowed then
    let (z, n1) := allocBigDec n 0
    (Except.ok z, n1)
  else
    let (z, n1) := allocBigDec n 0
    a.tokens.foldl totalBorrowStep (Except.ok z, n1)

/-- The `health` resolver (source lines 190-201): `null` when the account has
never borrowed; otherwise it computes `totalBorrowValueInEth(account)` and
compares it against a freshly allocated `bigdec('0')` with JavaScript `==`
(reference equality, line 195); on the equal branch it returns the raw
collateral total, otherwise
`totalCollateralValueInEth(account).divide(totalBorrow, 18)`.
`Except.ok none` models the resolver returning `null`. -/
def healthResolve (n : Ref) (a : Account) :
    Except ArithError (Option ℚ) × Ref :=
  if !a.hasBorrowed then (Except.ok none, n)
  else
    match totalBorrowValueInEth n a with
    | (Except.error e, n1) => (Except.error e, n1)
    | (Except.ok totalBorrow, n1) =>
      let (z, n2) := allocBigDec n1 0
      if jsObjEq totalBorrow z then
        (Except.ok (some (totalCollateralValueInEth a)), n2)
      else
        match bdDivide (totalCollateralValueInEth a) totalBorrow.val 18 with
        | Except.error e => (Except.error e, n2)
        | Except.ok q => (Except.ok (some q), n2)

/-!
## Dependency fragment declarations (source lines 168-322)

Every derived field is registered with a GraphQL fragment (its declared
upstream selection) next to its resolver.  A selection is modelled as the list
of its leaf field paths; the alias `___tokens: tokens` selects the upstream
field `tokens`, recorded here under its upstream name.  `resolverDeps` lists
the upstream fields the paired resolver dereferences, transitively through the
pure functions it calls.
-/

/-- One derived-field registration: the extended type, the field name, the
fragment's leaf selection paths, and the upstream field paths the resolver
dereferences (transitively). -/
structure FieldRegistration where
  typeName : String
  fieldName : String
  fragmentSelection : List (List String)
  resolverDeps : List (List String)
deriving DecidableEq, Repr

/-- Selection of the fragments registered for `Account.health` and
`Account.totalBorrowValueInEth` (source lines 173-189 and 205-221, which are
identical). -/
def accountFullSelection : List (List String) :=
  [["id"], ["hasBorrowed"],
   ["tokens", "cTokenBalance"],
   ["tokens", "storedBorrowBalance"],
   ["tokens", "accountBorrowIndex"],
   ["tokens", "market", "borrowIndex"],
   ["tokens", "market", "collateralFactor"],
   ["tokens", "market", "exchangeRate"],
   ["tokens", "market", "underlyingPrice"]]

/-- `Account.health` registration (source lines 172-202). -/
def healthReg : FieldRegistration :=
  { typeName := "Account", fieldName := "health"
    fragmentSelection := accountFullSelection
    resolverDeps :=
      [["hasBorrowed"],
       ["tokens", "storedBorrowBalance"],
       ["tokens", "accountBorrowIndex"],
       ["tokens", "market", "borrowIndex"],
       ["tokens", "market", "underlyingPrice"],
       ["tokens", "cTokenBalance"],
       ["tokens", "market", "collateralFactor"],
       ["tokens", "market", "exchangeRate"]] }

/-- `Account.totalBorrowValueInEth` registration (source lines 204-223). -/
def totalBorrowValueInEthReg : FieldRegistration :=
  { typeName := "Account", fieldName := "totalBorrowValueInEth"
    fragmentSelection := accountFullSelection
    resolverDeps :=
      [["hasBorrowed"],
       ["tokens", "market", "underlyingPrice"],
       ["tokens", "storedBorrowBalance"],
       ["tokens", "accountBorrowIndex"],
       ["tokens", "market", "borrowIndex"]] }

/-- `Account.totalCollateralValueInEth` registration (source lines 225-241). -/
def totalCollateralValueInEthReg : FieldRegistration :=
  { typeName := "Account", fieldName := "totalCollateralValueInEth"
    fragmentSelection :=
      [["id"],
       ["tokens", "cTokenBalance"],
       ["tokens", "market", "collateralFactor"],
       ["tokens", "market", "exchangeRate"],
       ["tokens", "market", "underlyingPrice"]]
    resolverDeps :=
      [["tokens", "cTokenBalance"],
       ["tokens", "market", "collateralFactor"],
       ["tokens", "market", "exchangeRate"],
       ["tokens", "market", "underlyingPrice"]] }

/-- `AccountCToken.supplyBalanceUnderlying` registration (source lines
245-248). -/
def supplyBalanceUnderlyingReg : FieldRegistration :=
  { typeName := "AccountCToken", fieldName := "supplyBalanceUnderlying"
    fragmentSelection := [["id"], ["cTokenBalance"], ["market", "exchangeRate"]]
    resolverDeps := [["cTokenBalance"], ["market", "exchangeRate"]] }

/-- `AccountCToken.supplyBalanceETH` registration (source lines 250-261).  The
fragment names the derived field `supplyBalanceUnderlying` itself rather than
the upstream data fields (`cTokenBalance`, `market.exchangeRate`) that the
resolver's call to `supplyBalanceUnderlying` dereferences. -/
def supplyBalanceETHReg : FieldRegistration :=
  { typeName := "AccountCToken", fieldName := "supplyBalanceETH"
    fragmentSelection :=
      [["id"], ["supplyBalanceUnderlying"], ["market", "underlyingPrice"]]
    resolverDeps :=
      [["cTokenBalance"], ["market", "exchangeRate"],
       ["market", "underlyingPrice"]] }

/-- `AccountCToken.lifetimeSupplyInterestAccrued` registration (source lines
263-277). -/
def lifetimeSupplyInterestAccruedReg : FieldRegistration :=
  { typeName := "AccountCToken", fieldName := "lifetimeSupplyInterestAccrued"
    fragmentSelection :=
      [["id"], ["cTokenBalance"], ["market", "exchangeRate"],
       ["totalUnderlyingSupplied"], ["totalUnderlyingRedeemed"]]
    resolverDeps :=
      [["cTokenBalance"], ["market", "exchangeRate"],
       ["totalUnderlyingSupplied"], ["totalUnderlyingRedeemed"]] }

/-- `AccountCToken.borrowBalanceUnderlying` registration (source lines
279-289). -/
def borrowBalanceUnderlyingReg : FieldRegistration :=
  { typeName := "AccountCToken", fieldName := "borrowBalanceUnderlying"
    fragmentSelection :=
      [["id"], ["storedBorrowBalance"], ["accountBorrowIndex"],
       ["market", "borrowIndex"]]
    resolverDeps :=
      [["storedBorrowBalance"], ["accountBorrowIndex"],
       ["market", "borrowIndex"]] }

/-- `AccountCToken.borrowBalanceETH` registration (source lines 291-302).  As
with `supplyBalanceETH`, the fragment names the derived field
`borrowBalanceUnderlying` instead of the upstream data fields its computation
dereferences. -/
def borrowBalanceETHReg : FieldRegistration :=
  { typeName := "AccountCToken", fieldName := "borrowBalanceETH"
    fragmentSelection :=
      [["id"], ["borrowBalanceUnderlying"], ["market", "underlyingPrice"]]
    resolverDeps :=
      [["storedBorrowBalance"], ["accountBorrowIndex"],
       ["market", "borrowIndex"], ["market", "underlyingPrice"]] }

/-- `AccountCToken.lifetimeBorrowInterestAccrued` registration (source lines
304-319). -/
def lifetimeBorrowInterestAccruedReg : FieldRegistration :=
  { typeName := "AccountCToken", fieldName := "lifetimeBorrowInterestAccrued"
    fragmentSelection :=
      [["id"], ["storedBorrowBalance"], ["accountBorrowIndex"],
       ["market", "borrowIndex"], ["totalUnderlyingBorrowed"],
       ["totalUnderlyingRepaid"]]
    resolverDeps :=
      [["storedBorrowBalance"], ["accountBorrowIndex"],
       ["market", "borrowIndex"], ["totalUnderlyingBorrowed"],
       ["totalUnderlyingRepaid"]] }

/-- All nine derived-field registrations of the `mergeSchemas` call (source
lines 168-322), in source order. -/
def registrations : List FieldRegistration :=
  [healthReg, totalBorrowValueInEthReg, totalCollateralValueInEthReg,
   supplyBalanceUnderlyingReg, supplyBalanceETHReg,
   lifetimeSupplyInterestAccruedReg, borrowBalanceUnderlyingReg,
   borrowBalanceETHReg, lifetimeBorrowInterestAccruedReg]

/-- The fragment's selection is a superset of every upstream field the paired
resolver dereferences. -/
def selectionSuperset (r : FieldRegistration) : Bool :=
  r.resolverDeps.all (fun p => r.fragmentSelection.contains p)

/-!
## Schema extension surface vs. registered resolvers (source lines 108-121
and 168-322)
-/

/-- Fields the `customSchema` type-extension string declares on `Account`
(source lines 109-112), with their non-null flag. -/
def accountExtensionDecls : List (String × Bool) :=
  [("totalBorrowValueInEth", true), ("totalCollateralValueInEth", true)]

/-- Fields the `customSchema` type-extension string declares on
`AccountCToken` (source lines 114-120), with their non-null flag. -/
def accountCTokenExtensionDecls : List (String × Bool) :=
  [("supplyBalanceUnderlying", true), ("lifetimeSupplyInterestAccrued", true),
   ("borrowBalanceUnderlying", true), ("lifetimeBorrowInterestAccrued", true),
   ("supplyBalanceETH", true)]

/-- Fields with a registered resolver on `Account` (source lines 171-242). -/
def accountResolverFields : List String :=
  ["health", "totalBorrowValueInEth", "totalCollateralValueInEth"]

/-- Fields with a registered resolver on `AccountCToken` (source lines
244-320). -/
def accountCTokenResolverFields : List String :=
  ["supplyBalanceUnderlying", "supplyBalanceETH",
   "lifetimeSupplyInterestAccrued", "borrowBalanceUnderlying",
   "borrowBalanceETH", "lifetimeBorrowInterestAccrued"]

/-- Names declared by a type-extension field list. -/
def declaredNames (l : List (String × Bool)) : List String :=
  l.map Prod.fst

/-!
## Operand discipline of the arithmetic call sites (spec §3 invariant)

Each call of an arithmetic method of the decimal library in the source is
recorded with the expression passed as its argument, tagged by whether that
expression was parsed through `bigdec(...)` first (`parsed`), is an upstream
decimal-string field passed directly (`rawString`), or is the result of
another decimal computation (`derivedValue`).
-/

/-- The argument expression of one arithmetic method call. -/
inductive Operand where
  | parsed (expr : String)
  | rawString (expr : String)
  | derivedValue (expr : String)
deriving DecidableEq, Repr

/-- One arithmetic method call in the source: the enclosing function, the
method name, and its argument operand. -/
structure ArithCall where
  inFunction : String
  method : String
  arg : Operand
deriving DecidableEq, Repr

/-- Every arithmetic method call of the derived-field layer (source lines
127-166, 190-201, 273-276, 315-318), in source order. -/
def arithCalls : List ArithCall :=
  [⟨"supplyBalanceUnderlying", "multiply",
    Operand.rawString "cToken.market.exchangeRate"⟩,
   ⟨"borrowBalanceUnderlying", "multiply",
    Operand.rawString "cToken.market.borrowIndex"⟩,
   ⟨"borrowBalanceUnderlying", "divide",
    Operand.rawString "cToken.accountBorrowIndex"⟩,
   ⟨"tokenInEth", "multiply", Operand.rawString "market.exchangeRate"⟩,
   ⟨"tokenInEth", "multiply", Operand.rawString "market.underlyingPrice"⟩,
   ⟨"supplyBalanceETH", "multiply",
    Operand.rawString "cToken.market.underlyingPrice"⟩,
   ⟨"borrowBalanceETH", "multiply",
    Operand.rawString "cToken.market.underlyingPrice"⟩,
   ⟨"totalCollateralValueInEth", "plus",
    Operand.derivedValue "tokenInEth(token.market).multiply(token.cTokenBalance)"⟩,
   ⟨"totalCollateralValueInEth", "multiply",
    Operand.rawString "token.cTokenBalance"⟩,
   ⟨"totalBorrowValueInEth", "plus",
    Operand.derivedValue "bigdec(price).multiply(borrowBalanceUnderlying(token))"⟩,
   ⟨"totalBorrowValueInEth", "multiply",
    Operand.derivedValue "borrowBalanceUnderlying(token)"⟩,
   ⟨"health.resolve", "divide", Operand.derivedValue "totalBorrow"⟩,
   ⟨"lifetimeSupplyInterestAccrued.resolve", "subtract",
    Operand.rawString "cToken.totalUnderlyingSupplied"⟩,
   ⟨"lifetimeSupplyInterestAccrued.resolve", "add",
    Operand.rawString "cToken.totalUnderlyingRedeemed"⟩,
   ⟨"lifetimeBorrowInterestAccrued.resolve", "subtract",
    Operand.rawString "cToken.totalUnderlyingBorrowed"⟩,
   ⟨"lifetimeBorrowInterestAccrued.resolve", "add",
    Operand.rawString "cToken.totalUnderlyingRepaid"⟩]

/-- Whether an operand is an upstream string field passed to an arithmetic
method without having been parsed into a decimal value. -/
def isRawOperand : Operand → Bool
  | Operand.rawString _ => true
  | _ => false

/-!
## Operation routing (source lines 94-101)
-/

/-- The two transport channels of the split link: the WebSocket (streaming)
link and the HTTP (request/response) link. -/
inductive Channel where
  | ws
  | http
deriving DecidableEq, Repr

/-- The main definition of a GraphQL document as inspected by the split
predicate: its node kind and, for operation definitions, the operation kind
string (query, mutation or subscription). -/
structure MainDef where
  kind : String
  operation : String
deriving DecidableEq, Repr

/-- The split predicate (source lines 95-98):
`kind === 'OperationDefinition' && operation === 'subscription'`. -/
def isSubscriptionOperation (d : MainDef) : Bool :=
  d.kind == "OperationDefinition" && d.operation == "subscription"

/-- The split link (source lines 94-101): operations satisfying the predicate
go to the WebSocket link, all others to the HTTP link.  The predicate is
applied to each operation's query document as it is executed. -/
def routeOperation (d : MainDef) : Channel :=
  if isSubscriptionOperation d then Channel.ws else Channel.http

/-!
## Header-filtering middleware (source lines 330-341)
-/

/-- The header values a request carries for the two filtered header names;
`none` means the header is absent, `some s` that it is present with value
`s`.  Node lower-cases header names and yields the raw string value. -/
structure Headers where
  challengeBypassToken : Option String
  xProxyId : Option String
deriving DecidableEq, Repr

/-- JavaScript truthiness of a header lookup: `undefined` (absent) and the
empty string are falsy, every other string is truthy. -/
def truthy : Option String → Bool
  | none => false
  | some s => !(s == "")

/-- Outcome of the middleware: either it responds itself with a status code
and body (the request never reaches the GraphQL layer), or it calls `next()`
passing the request through unchanged. -/
inductive MiddlewareOutcome where
  | respond (status : ℕ) (body : String)
  | passThrough
deriving DecidableEq, Repr

/-- `rejectBadHeaders` (source lines 330-341): respond 400 "Bad Request" when
`req.headers['challenge-bypass-token'] || req.headers['x_proxy_id']` is
truthy, otherwise call `next()`. -/
def rejectBadHeaders (h : Headers) : MiddlewareOutcome :=
  if truthy h.challengeBypassToken || truthy h.xProxyId then
    MiddlewareOutcome.respond 400 "Bad Request"
  else
    MiddlewareOutcome.passThrough

/-!
## Concrete inputs used by the witnesses
-/

/-- A market with exchange rate 2 and all other fields 1. -/
def plainMarket : Market :=
  { exchangeRate := 2, borrowIndex := 1, collateralFactor := 1,
    underlyingPrice := 1 }

/-- A position that has never borrowed in its market: its borrow index was
never initialized and is the decimal value 0. -/
def zeroIndexPos : CToken :=
  { id := "p0", cTokenBalance := 10, storedBorrowBalance := 5,
    accountBorrowIndex := 0, totalUnderlyingSupplied := 0,
    totalUnderlyingRedeemed := 0, totalUnderlyingBorrowed := 0,
    totalUnderlyingRepaid := 0, market := plainMarket }

/-- Scenario 2 of the spec: storedBorrowBalance 100, market borrow index 1.1,
account borrow index 1.0. -/
def scenarioTwoPos : CToken :=
  { id := "p2", cTokenBalance := 0, storedBorrowBalance := 100,
    accountBorrowIndex := 1, totalUnderlyingSupplied := 0,
    totalUnderlyingRedeemed := 0, totalUnderlyingBorrowed := 0,
    totalUnderlyingRepaid := 0,
    market := { exchangeRate := 1, borrowIndex := 11 / 10,
                collateralFactor := 1, underlyingPrice := 1 } }

/-- An account that has never borrowed, holding one position. -/
def noBorrowAccount : Account :=
  { id := "a1", hasBorrowed := false, tokens := [zeroIndexPos] }

/-- First position of the scenario-3 account: collateral value
1 × 2 × 1 × 25 = 50, no outstanding borrow. -/
def collateralPosFifty : CToken :=
  { id := "c50", cTokenBalance := 25, storedBorrowBalance := 0,
    accountBorrowIndex := 1, totalUnderlyingSupplied := 0,
    totalUnderlyingRedeemed := 0, totalUnderlyingBorrowed := 0,
    totalUnderlyingRepaid := 0,
    market := { exchangeRate := 2, borrowIndex := 1, collateralFactor := 1,
                underlyingPrice := 1 } }

/-- Second position of the scenario-3 account: collateral value
1 × 1 × 3 × 10 = 30, no outstanding borrow. -/
def collateralPosThirty : CToken :=
  { id := "c30", cTokenBalance := 10, storedBorrowBalance := 0,
    accountBorrowIndex := 1, totalUnderlyingSupplied := 0,
    totalUnderlyingRedeemed := 0, totalUnderlyingBorrowed := 0,
    totalUnderlyingRepaid := 0,
    market := { exchangeRate := 1, borrowIndex := 1, collateralFactor := 1,
                underlyingPrice := 3 } }

/-- Scenario 3 of the spec: an account that has borrowed historically, two
positions contributing collateral 50 and 30, total borrow 0. -/
def scenarioThreeAccount : Account :=
  { id := "a3", hasBorrowed := true,
    tokens := [collateralPosFifty, collateralPosThirty] }

/-!
## Helper lemmas
-/

/-- Comparing two consecutively allocated objects by reference is false. -/
theorem jsObjEq_consecutive (n : Ref) (v w : ℚ) :
    jsObjEq (allocBigDec n v).1 (allocBigDec (allocBigDec n v).2 w).1 = false := by
  simp [jsObjEq, allocBigDec]

/-- A successful `totalBorrowStep` returns an object allocated strictly below
the returned allocation counter. -/
theorem totalBorrowStep_ok_ref_lt (acc : Except ArithError BigDecObj × Ref)
    (t : CToken) (obj : BigDecObj) (n' : Ref)
    (h : totalBorrowStep acc t = (Except.ok obj, n')) : obj.ref < n' := by
  obtain ⟨res, m⟩ := acc
  cases res with
  | error e => simp [totalBorrowStep] at h
  | ok accObj =>
    rw [totalBorrowStep] at h
    rcases hbb : borrowBalanceUnderlying (allocBigDec m t.market.underlyingPrice).2 t
      with ⟨r, m2⟩
    simp only [allocBigDec] at h hbb
    rw [hbb] at h
    cases r with
    | error e => simp at h
    | ok b =>
      simp only [allocBigDec, Prod.mk.injEq, Except.ok.injEq] at h
      obtain ⟨hobj, hn⟩ := h
      subst hobj hn
      exact Nat.lt_succ_self _

/-- The fold of `totalBorrowStep` preserves the freshness invariant of the
allocation counter. -/
theorem foldl_totalBorrowStep_ok_ref_lt (l : List CToken)
    (acc : Except ArithError BigDecObj × Ref)
    (hacc : ∀ obj n', acc = (Except.ok obj, n') → obj.ref < n') :
    ∀ obj n', l.foldl totalBorrowStep acc = (Except.ok obj, n') → obj.ref < n' := by
  induction l generalizing acc with
  | nil => simpa using hacc
  | cons t ts ih =>
    intro obj n' h
    exact ih (totalBorrowStep acc t)
      (fun o m hm => totalBorrowStep_ok_ref_lt acc t o m hm) obj n'
      (by simpa using h)

/-- A successful `totalBorrowValueInEth` returns an object allocated strictly
below the returned allocation counter, so the fresh `bigdec('0')` the health
resolver allocates next can never be reference-equal to it. -/
theorem totalBorrowValueInEth_ok_ref_lt (n : Ref) (a : Account)
    (obj : BigDecObj) (n' : Ref)
    (h : totalBorrowValueInEth n a = (Except.ok obj, n')) : obj.ref < n' := by
  rw [totalBorrowValueInEth] at h
  by_cases hb : a.hasBorrowed
  · simp only [hb, Bool.not_true, Bool.false_eq_true, if_false] at h
    exact foldl_totalBorrowStep_ok_ref_lt a.tokens _
      (by
        intro o m hm
        simp only [allocBigDec, Prod.mk.injEq, Except.ok.injEq] at hm
        obtain ⟨ho, hm'⟩ := hm
        subst ho hm'
        exact Nat.lt_succ_self _) obj n' h
  · simp only [Bool.not_eq_true] at hb
    simp only [hb, Bool.not_false, if_true, allocBigDec, Prod.mk.injEq,
      Except.ok.injEq] at h
    obtain ⟨ho, hm'⟩ := h
    subst ho hm'
    exact Nat.lt_succ_self _

/-- Equality of decimal-library results is decidable. -/
instance {e a : Type} [DecidableEq e] [DecidableEq a] :
    DecidableEq (Except e a) := fun x y =>
  match x, y with
  | Except.ok v, Except.ok w =>
    if h : v = w then isTrue (by rw [h]) else isFalse (by simp [h])
  | Except.error v, Except.error w =>
    if h : v = w then isTrue (by rw [h]) else isFalse (by simp [h])
  | Except.ok _, Except.error _ => isFalse (by simp)
  | Except.error _, Except.ok _ => isFalse (by simp)

/-- ROUND_DOWN truncation is the identity on integers. -/
theorem truncTowardZero_intCast (z : ℤ) : truncTowardZero (z : ℚ) = z := by
  unfold truncTowardZero
  split
  · exact Int.floor_intCast z
  · rw [← Int.cast_neg, Int.floor_intCast]
    omega

/-!
## Claims
-/

/-- Claim C1.  The spec says a position whose `accountBorrowIndex` is the
decimal value 0 has `borrowBalanceUnderlying` equal to 0, with no division.
The code instead compares `bigdec(accountBorrowIndex)` with `bigdec('0')`
using JavaScript `==`, which on two freshly constructed objects is reference
equality and therefore always false, so it always takes the division branch:
on a zero index the division by zero fails. -/
theorem borrowBalanceUnderlying_zeroIndex_divisionByZero (n : Ref) (c : CToken)
    (h : c.accountBorrowIndex = 0) :
    (borrowBalanceUnderlying n c).1 = Except.error ArithError.divisionByZero := by
  have hne : (n == n + 1) = false := by simp
  simp [borrowBalanceUnderlying, allocBigDec, jsObjEq, hne, bdDivide, h]

/-- Witness for C1: the concrete never-borrowed position. -/
theorem borrowBalanceUnderlying_zeroIndex_divisionByZero_witness :
    zeroIndexPos.accountBorrowIndex = 0 ∧
    (borrowBalanceUnderlying 0 zeroIndexPos).1 =
      Except.error ArithError.divisionByZero :=
  ⟨rfl, borrowBalanceUnderlying_zeroIndex_divisionByZero 0 zeroIndexPos rfl⟩

/-- Claim C2.  For every account that has never borrowed,
`totalBorrowValueInEth` returns the decimal value 0 and the `health` resolver
returns the explicit absent value `null` (modelled as `Except.ok none`), not
zero or infinity. -/
theorem notBorrowed_zeroBorrowValue_nullHealth (n : Ref) (a : Account)
    (h : a.hasBorrowed = false) :
    ((totalBorrowValueInEth n a).1).map BigDecObj.val = Except.ok 0 ∧
    (healthResolve n a).1 = Except.ok none := by
  constructor
  · simp [totalBorrowValueInEth, allocBigDec, h, Except.map]
  · simp [healthResolve, h]

/-- Witness for C2: a concrete borrow-free account. -/
theorem notBorrowed_zeroBorrowValue_nullHealth_witness :
    noBorrowAccount.hasBorrowed = false ∧
    ((totalBorrowValueInEth 0 noBorrowAccount).1).map BigDecObj.val =
      Except.ok 0 ∧
    (healthResolve 0 noBorrowAccount).1 = Except.ok none :=
  ⟨rfl, notBorrowed_zeroBorrowValue_nullHealth 0 noBorrowAccount rfl⟩

/-- Claim C3.  The spec says an account with `hasBorrowed == true` whose total
borrow value is 0 has `health` equal to its total collateral value, with no
division.  The code's guard `totalBorrow == bigdec('0')` compares the computed
object against a freshly allocated one with JavaScript `==` (reference
equality), which is always false because the fresh allocation is distinct from
every existing object; the resolver therefore always divides, and with a zero
total borrow the division fails instead of returning the collateral total. -/
theorem healthResolve_zeroTotalBorrow_divisionByZero (n : Ref) (a : Account)
    (obj : BigDecObj) (n1 : Ref) (h1 : a.hasBorrowed = true)
    (h2 : totalBorrowValueInEth n a = (Except.ok obj, n1))
    (h3 : obj.val = 0) :
    (healthResolve n a).1 = Except.error ArithError.divisionByZero := by
  have hlt := totalBorrowValueInEth_ok_ref_lt n a obj n1 h2
  have hne : (obj.ref == n1) = false := by
    simp [Nat.ne_of_lt hlt]
  simp [healthResolve, h1, h2, allocBigDec, jsObjEq, hne, bdDivide, h3]

/-- Witness for C3: the scenario-3 account (collateral 50 + 30, total borrow
computed as 0); where the spec expects `health == 80` the code fails with
division by zero. -/
theorem healthResolve_zeroTotalBorrow_divisionByZero_witness :
    scenarioThreeAccount.hasBorrowed = true ∧
    totalBorrowValueInEth 0 scenarioThreeAccount =
      (Except.ok ⟨16, 0⟩, 17) ∧
    totalCollateralValueInEth scenarioThreeAccount = 80 ∧
    (healthResolve 0 scenarioThreeAccount).1 =
      Except.error ArithError.divisionByZero := by
  have h2 : totalBorrowValueInEth 0 scenarioThreeAccount =
      (Except.ok ⟨16, 0⟩, 17) := by
    norm_num [totalBorrowValueInEth, totalBorrowStep, borrowBalanceUnderlying,
      allocBigDec, jsObjEq, bdDivide, truncTowardZero, Int.floor_zero,
      scenarioThreeAccount, collateralPosFifty, collateralPosThirty]
  refine ⟨rfl, h2, ?_,
    healthResolve_zeroTotalBorrow_divisionByZero 0 scenarioThreeAccount
      ⟨16, 0⟩ 17 rfl h2 rfl⟩
  norm_num [totalCollateralValueInEth, tokenInEth, scenarioThreeAccount,
    collateralPosFifty, collateralPosThirty]

/-- Claim C4.  For every position with a nonzero `accountBorrowIndex`,
`borrowBalanceUnderlying` is `storedBorrowBalance × market.borrowIndex /
accountBorrowIndex`, divided at scale 18 with rounding mode ROUND_DOWN. -/
theorem borrowBalanceUnderlying_nonzeroIndex_scale18 (n : Ref) (c : CToken)
    (h : c.accountBorrowIndex ≠ 0) :
    ((borrowBalanceUnderlying n c).1).map BigDecObj.val =
      Except.ok
        ((truncTowardZero
            (c.storedBorrowBalance * c.market.borrowIndex /
              c.accountBorrowIndex * 10 ^ 18) : ℚ) / 10 ^ 18) := by
  have hne : (n == n + 1) = false := by simp
  simp [borrowBalanceUnderlying, allocBigDec, jsObjEq, hne, bdDivide, h,
    Except.map]

/-- Witness for C4: scenario 2 of the spec, 100 × 1.1 / 1.0 = 110 at scale
18. -/
theorem borrowBalanceUnderlying_nonzeroIndex_scale18_witness :
    scenarioTwoPos.accountBorrowIndex ≠ 0 ∧
    ((borrowBalanceUnderlying 0 scenarioTwoPos).1).map BigDecObj.val =
      Except.ok 110 := by
  have hq : (scenarioTwoPos.storedBorrowBalance *
      scenarioTwoPos.market.borrowIndex / scenarioTwoPos.accountBorrowIndex *
      10 ^ 18 : ℚ) = ((110 * 10 ^ 18 : ℤ) : ℚ) := by
    norm_num [scenarioTwoPos]
  refine ⟨by norm_num [scenarioTwoPos],
    (borrowBalanceUnderlying_nonzeroIndex_scale18 0 scenarioTwoPos
      (by norm_num [scenarioTwoPos])).trans ?_⟩
  rw [hq, truncTowardZero_intCast]
  norm_num

/-- Two positions that agree on every upstream field named by the
`supplyBalanceETH` fragment (`id` and `market.underlyingPrice`; the selection
`supplyBalanceUnderlying` names the derived extension field itself, which is
not an upstream datum)... first of the pair. -/
def fragmentAgreeTokenA : CToken :=
  { id := "t", cTokenBalance := 1, storedBorrowBalance := 0,
    accountBorrowIndex := 1, totalUnderlyingSupplied := 0,
    totalUnderlyingRedeemed := 0, totalUnderlyingBorrowed := 0,
    totalUnderlyingRepaid := 0,
    market := { exchangeRate := 1, borrowIndex := 1, collateralFactor := 1,
                underlyingPrice := 1 } }

/-- ... second of the pair: identical except for `cTokenBalance`, a field the
resolver dereferences but the fragment does not select. -/
def fragmentAgreeTokenB : CToken :=
  { id := "t", cTokenBalance := 2, storedBorrowBalance := 0,
    accountBorrowIndex := 1, totalUnderlyingSupplied := 0,
    totalUnderlyingRedeemed := 0, totalUnderlyingBorrowed := 0,
    totalUnderlyingRepaid := 0,
    market := { exchangeRate := 1, borrowIndex := 1, collateralFactor := 1,
                underlyingPrice := 1 } }

/-- Claim C5.  The spec's invariant says every registered fragment's selection
is a superset of the fields its resolver dereferences, transitively, and in
particular that `supplyBalanceETH`'s fragment includes `cTokenBalance` and
`market.exchangeRate`.  In the code that fragment instead selects the derived
field name `supplyBalanceUnderlying` and omits both data fields; accordingly
two positions agreeing on every upstream field the fragment selects can still
produce different `supplyBalanceETH` values. -/
theorem fragmentSupersetInvariant_fails :
    registrations.all selectionSuperset = false ∧
    supplyBalanceETHReg ∈ registrations ∧
    selectionSuperset supplyBalanceETHReg = false ∧
    ["cTokenBalance"] ∈ supplyBalanceETHReg.resolverDeps ∧
    ["cTokenBalance"] ∉ supplyBalanceETHReg.fragmentSelection ∧
    ["market", "exchangeRate"] ∉ supplyBalanceETHReg.fragmentSelection ∧
    fragmentAgreeTokenA.id = fragmentAgreeTokenB.id ∧
    fragmentAgreeTokenA.market.underlyingPrice =
      fragmentAgreeTokenB.market.underlyingPrice ∧
    supplyBalanceETH fragmentAgreeTokenA ≠ supplyBalanceETH fragmentAgreeTokenB := by
  refine ⟨by decide, by decide, by decide, by decide, by decide, by decide,
    rfl, rfl, ?_⟩
  norm_num [supplyBalanceETH, supplyBalanceUnderlying, fragmentAgreeTokenA,
    fragmentAgreeTokenB]

/-- Claim C6.  The spec says every field with a registered resolver is also
declared as a type extension, with `health` a nullable Decimal on `Account`
and `borrowBalanceETH` a non-null Decimal on `AccountCToken`.  The code's
`customSchema` declares neither: `health` and `borrowBalanceETH` have
resolvers but no extension declaration. -/
theorem resolverFields_missing_from_extensions :
    ("health" ∈ accountResolverFields ∧
      "health" ∉ declaredNames accountExtensionDecls) ∧
    ("borrowBalanceETH" ∈ accountCTokenResolverFields ∧
      "borrowBalanceETH" ∉ declaredNames accountCTokenExtensionDecls) ∧
    accountResolverFields.all
      (fun f => (declaredNames accountExtensionDecls).contains f) = false ∧
    accountCTokenResolverFields.all
      (fun f => (declaredNames accountCTokenExtensionDecls).contains f) = false := by
  refine ⟨⟨by decide, by decide⟩, ⟨by decide, by decide⟩, by decide, by decide⟩

/-- The collateral total written exactly as the spec phrases it:
the left fold, starting from 0, of
`market.collateralFactor × market.exchangeRate × market.underlyingPrice ×
position.balance` over the account's positions in list order.
Modelled from the spec: §4.3 `collateralValueInReferenceCurrency` and
`totalCollateralValueInReferenceCurrency`. -/
def totalCollateralSpec (a : Account) : ℚ :=
  a.tokens.foldl
    (fun acc t =>
      acc + t.market.collateralFactor * t.market.exchangeRate *
        t.market.underlyingPrice * t.cTokenBalance)
    0

/-- Claim C7.  The code's `totalCollateralValueInEth` (a reduce of
`tokenInEth(token.market).multiply(token.cTokenBalance)` starting from 0)
equals the spec's left fold of
`collateralFactor × exchangeRate × underlyingPrice × balance`. -/
theorem totalCollateral_matches_spec_fold (a : Account) :
    totalCollateralValueInEth a = totalCollateralSpec a := rfl

/-- Claim C8.  The spec's invariant says every upstream decimal-string field
is parsed into a decimal value before taking part in any arithmetic; in the
code only the first operand of each chain is parsed through `bigdec(...)`,
while the method arguments are raw upstream strings — e.g.
`supplyBalanceUnderlying` passes `cToken.market.exchangeRate` directly to
`multiply`. -/
theorem arithOperandDiscipline_fails :
    arithCalls.all (fun c => !isRawOperand c.arg) = false ∧
    (⟨"supplyBalanceUnderlying", "multiply",
      Operand.rawString "cToken.market.exchangeRate"⟩ : ArithCall) ∈ arithCalls ∧
    (⟨"borrowBalanceUnderlying", "divide",
      Operand.rawString "cToken.accountBorrowIndex"⟩ : ArithCall) ∈ arithCalls := by
  refine ⟨by decide, by decide, by decide⟩

/-- Claim C9.  The split link routes an operation to the streaming (WebSocket)
channel iff its main definition is an `OperationDefinition` whose operation
kind is `subscription`; every other operation goes to the request/response
(HTTP) channel.  The predicate is a function of the single operation being
executed. -/
theorem splitRoutesBySubscriptionKind (d : MainDef) :
    (routeOperation d = Channel.ws ↔
      d.kind = "OperationDefinition" ∧ d.operation = "subscription") ∧
    (routeOperation d = Channel.http ↔
      ¬(d.kind = "OperationDefinition" ∧ d.operation = "subscription")) := by
  have hb : (isSubscriptionOperation d = true) ↔
      (d.kind = "OperationDefinition" ∧ d.operation = "subscription") := by
    simp [isSubscriptionOperation]
  by_cases h : isSubscriptionOperation d = true
  · simp [routeOperation, h, hb.mp h]
  · constructor
    · simp [routeOperation, h]
      intro h1 h2
      exact h (hb.mpr ⟨h1, h2⟩)
    · simp [routeOperation, h]
      intro h1 h2
      exact h (hb.mpr ⟨h1, h2⟩)

/-- A request whose `challenge-bypass-token` header is present with the empty
string as its value. -/
def emptyTokenHeaders : Headers :=
  { challengeBypassToken := some "", xProxyId := none }

/-- Counterexample for claim C10 as stated: a request that carries the
`challenge-bypass-token` header (with an empty value) is not answered with
400; the middleware passes it through, because the source tests JavaScript
truthiness of the header value and the empty string is falsy. -/
theorem rejectBadHeaders_emptyValue_passesThrough :
    emptyTokenHeaders.challengeBypassToken ≠ none ∧
    rejectBadHeaders emptyTokenHeaders = MiddlewareOutcome.passThrough := by
  refine ⟨by decide, by decide⟩

/-- Claim C10, amended: the middleware responds 400 Bad Request (and the
request never reaches the GraphQL layer) iff at least one of the
`challenge-bypass-token` and `x_proxy_id` headers is present with a non-empty
value; otherwise — in particular whenever neither header is present — the
request is passed through to the next handler unchanged. -/
theorem rejectBadHeaders_rejects_iff_truthy (h : Headers) :
    (rejectBadHeaders h = MiddlewareOutcome.respond 400 "Bad Request" ↔
      (truthy h.challengeBypassToken || truthy h.xProxyId) = true) ∧
    (rejectBadHeaders h = MiddlewareOutcome.passThrough ↔
      (truthy h.challengeBypassToken || truthy h.xProxyId) = false) := by
  by_cases hc : (truthy h.challengeBypassToken || truthy h.xProxyId) = true
  · simp [rejectBadHeaders, hc]
  · simp only [Bool.not_eq_true] at hc
    simp [rejectBadHeaders, hc]
